import Mathlib

/-!
Verification development for the Onyx.Taxi service (src/api_taxi.py).

The file shallow-embeds the parts of api_taxi.py that the order lifecycle
claims are about: the JSON body dictionaries, the jsonschema validators
attached to the routes, the body of change_order (the order lifecycle
engine, lines 245-270), create_order (lines 226-242), get_order (lines
218-223) and the session_scope context manager (lines 129-140).

Conventions of the embedding:
- Python scalar values are the type Py; Python equality (==) is pyEq,
  which identifies bool True with int 1 as Python does, and a one-element
  tuple (v,) is Py.tuple1 v.  The source lines 260-264 end in a trailing
  comma, so in Python they assign one-element tuples; the embedding keeps
  that semantics.
- a JSON object body is an association list Dict with first-key-wins
  lookup (dictGet); a missing key raises KeyError, modelled with Except.
- jsonschema validation of the two schemas that matter is embedded as the
  boolean checkers drivers_post_valid (drivers_post_schema, lines 72-80)
  and orders_post_valid (orders_post_schema, lines 92-107).  The source
  calls validate() without a FormatChecker, so the date-time format of
  date_created is not enforced, only that it is a string.  Note that the
  routes POST /orders and PUT /orders/<id> are decorated with
  validate_schema(drivers_post_schema) in the source (lines 227 and 246).
- the database is a list of order rows plus an autoincrement counter;
  session_scope is modelled by the route-level runners put_order and
  post_orders, which record the session actions (commit / rollback /
  close) that the context manager performs on each path.
-/

/-- Python scalar values as they occur in request bodies and order rows.
Py.other stands for any other JSON value (arrays, nested objects, floats);
it fails every type test of the schemas, which is all the code observes. -/
inductive Py where
  | bool : Bool → Py
  | int : Int → Py
  | str : String → Py
  | tuple1 : Py → Py
  | other : Nat → Py
deriving DecidableEq, Repr

/-- Python equality (==): bool compares equal to the corresponding int,
values of otherwise different shapes compare unequal. -/
def pyEq : Py → Py → Bool
  | .bool a, .bool b => a == b
  | .bool a, .int n => (if a then (1 : Int) else 0) == n
  | .int n, .bool a => n == (if a then (1 : Int) else 0)
  | .int m, .int n => m == n
  | .str s, .str t => s == t
  | .tuple1 a, .tuple1 b => pyEq a b
  | .other m, .other n => m == n
  | _, _ => false

/-- A JSON object body: association list with first-key-wins lookup,
the shape request.get_json() hands to the handlers. -/
abbrev Dict := List (String × Py)

/-- Python dictionary lookup content[k] as an Option (none = KeyError). -/
def dictGet (d : Dict) (k : String) : Option Py :=
  (d.find? (fun kv => kv.1 == k)).map (fun kv => kv.2)

/-- jsonschema type string with minLength check. -/
def isStrMin (v : Py) (n : Nat) : Bool :=
  match v with
  | .str s => n ≤ s.length
  | _ => false

/-- jsonschema type integer check (bool is not an integer for jsonschema). -/
def isInt (v : Py) : Bool :=
  match v with
  | .int _ => true
  | _ => false

/-- The four order status literals of orders_post_schema (lines 100-103). -/
def statusEnum : List String := ["not_accepted", "in_progress", "done", "cancelled"]

/-- Python membership test v in l for a list of string literals. -/
def pyMemStr (v : Py) (l : List String) : Bool :=
  l.any (fun s => pyEq v (.str s))

/-- validate(body, drivers_post_schema): required name and car, both
strings of length at least 2, additionalProperties false (lines 72-80). -/
def drivers_post_valid (d : Dict) : Bool :=
  (match dictGet d "name" with | some v => isStrMin v 2 | none => false) &&
  (match dictGet d "car" with | some v => isStrMin v 2 | none => false) &&
  d.all (fun kv => kv.1 == "name" || kv.1 == "car")

/-- The six keys of orders_post_schema (line 94). -/
def orderKeys : List String :=
  ["client_id", "driver_id", "date_created", "status", "address_from", "address_to"]

/-- validate(body, orders_post_schema): the six required keys, integer ids,
date_created a string (format date-time is not enforced because the source
uses validate() without a FormatChecker), status in the four-value enum,
addresses non-empty strings, additionalProperties false (lines 92-107). -/
def orders_post_valid (d : Dict) : Bool :=
  (match dictGet d "client_id" with | some v => isInt v | none => false) &&
  (match dictGet d "driver_id" with | some v => isInt v | none => false) &&
  (match dictGet d "date_created" with | some v => isStrMin v 0 | none => false) &&
  (match dictGet d "status" with | some v => pyMemStr v statusEnum | none => false) &&
  (match dictGet d "address_from" with | some v => isStrMin v 1 | none => false) &&
  (match dictGet d "address_to" with | some v => isStrMin v 1 | none => false) &&
  d.all (fun kv => kv.1 ∈ orderKeys)

/-- An orders table row (class Order, lines 45-57).  The columns are kept
as Py because the source assigns one-element tuples to five of them on
update (lines 260-264). -/
structure Order where
  id : Int
  client_id : Py
  driver_id : Py
  date_created : Py
  status : Py
  address_from : Py
  address_to : Py
deriving DecidableEq, Repr

/-- The six proposed values of an order-shaped body, in schema order. -/
structure OrderFields where
  client_id : Py
  driver_id : Py
  date_created : Py
  status : Py
  address_from : Py
  address_to : Py
deriving DecidableEq, Repr

/-- Reads the six order keys out of a body; some iff all six are present. -/
def readOrderFields (d : Dict) : Option OrderFields :=
  match dictGet d "client_id", dictGet d "driver_id", dictGet d "date_created",
        dictGet d "status", dictGet d "address_from", dictGet d "address_to" with
  | some a, some b, some c, some s, some e, some f => some ⟨a, b, c, s, e, f⟩
  | _, _, _, _, _, _ => none

/-- Exceptions the handlers can raise: KeyError from a dict lookup,
AttributeError from calling a method on None. -/
inductive PyErr where
  | keyError : String → PyErr
  | attributeError : PyErr
deriving DecidableEq, Repr

/-- HTTP outcomes of the order routes.  The constructors carry the
response of the source verbatim in spirit:
- okRepr o           : 200 with repr of the row o
- validationError    : 400 "Bad Request: ошибка валидации данных" (line 118)
- completedErr       : 400 "Нельзя изменить завершенный заказ", i.e.
                       cannot modify a completed order (line 254)
- inProgressErr      : 400 "Заказ в обработке нельзя изменить", i.e.
                       cannot modify an order in progress (line 257)
- statusErr          : 400 "Нельзя изменить статус заказа", i.e.
                       cannot change the order status (line 267)
- objNotFound        : 404 "Object not found" (line 269) -/
inductive Resp where
  | okRepr : Order → Resp
  | validationError : Resp
  | completedErr : Resp
  | inProgressErr : Resp
  | statusErr : Resp
  | objNotFound : Resp
deriving DecidableEq, Repr

/-- The transition table status_chain (lines 273-274). -/
def status_chain : List (String × List String) :=
  [("not_accepted", ["in_progress", "cancelled"]),
   ("in_progress", ["cancelled", "done"])]

/-- Python ord.status in status_chain followed by status_chain[ord.status]:
the value of the first key equal (==) to the status, if any. -/
def statusChainFind (v : Py) : Option (List String) :=
  (status_chain.find? (fun kv => pyEq v (.str kv.1))).map (fun kv => kv.2)

/-- Membership of a status value in the four enum strings. -/
def isEnumStatus (v : Py) : Bool := pyMemStr v statusEnum

/-- Lines 255-256 of change_order: ord.status == "in_progress" and
ord.date_created != content[date_created] and ord.client_id !=
content[client_id] and ord.driver_id != content[driver_id], with the
short-circuit evaluation of the Python and: a lookup only happens when
every conjunct to its left is true. -/
def inProgressCond (o : Order) (content : Dict) : Except PyErr Bool :=
  if pyEq o.status (.str "in_progress") then
    match dictGet content "date_created" with
    | none => .error (.keyError "date_created")
    | some dc =>
      if pyEq o.date_created dc then .ok false
      else
        match dictGet content "client_id" with
        | none => .error (.keyError "client_id")
        | some ci =>
          if pyEq o.client_id ci then .ok false
          else
            match dictGet content "driver_id" with
            | none => .error (.keyError "driver_id")
            | some di => .ok (!(pyEq o.driver_id di))
  else .ok false

/-- Lines 260-265 of change_order.  Every assignment except the last ends
with a trailing comma in the source, so Python stores the one-element
tuple (value,) in the column; only address_to receives the plain value. -/
def applyAssign (o : Order) (ci di dc st af ato : Py) : Order :=
  { o with
    client_id := .tuple1 ci
    driver_id := .tuple1 di
    date_created := .tuple1 dc
    status := .tuple1 st
    address_from := .tuple1 af
    address_to := ato }

/-- The body of change_order after schema validation (lines 249-270),
given the row fetched for the path id (none = missing row) and the parsed
body.  Returns the response together with the state of the fetched row at
exit (the session commits that state on normal exit). -/
def change_order_core (ordRow : Option Order) (content : Dict) :
    Except PyErr (Resp × Option Order) :=
  match ordRow with
  | none => .ok (.objNotFound, none)
  | some o =>
    if pyEq o.status (.str "done") || pyEq o.status (.str "cancelled") then
      .ok (.completedErr, some o)
    else
      match inProgressCond o content with
      | .error e => .error e
      | .ok true => .ok (.inProgressErr, some o)
      | .ok false =>
        match statusChainFind o.status with
        | none => .ok (.okRepr o, some o)
        | some allowed =>
          match dictGet content "status" with
          | none => .error (.keyError "status")
          | some st =>
            if pyMemStr st allowed then
              match dictGet content "client_id" with
              | none => .error (.keyError "client_id")
              | some ci =>
                match dictGet content "driver_id" with
                | none => .error (.keyError "driver_id")
                | some di =>
                  match dictGet content "date_created" with
                  | none => .error (.keyError "date_created")
                  | some dc =>
                    match dictGet content "address_from" with
                    | none => .error (.keyError "address_from")
                    | some af =>
                      match dictGet content "address_to" with
                      | none => .error (.keyError "address_to")
                      | some ato =>
                        let o2 := applyAssign o ci di dc st af ato
                        .ok (.okRepr o2, some o2)
            else .ok (.statusErr, some o)

deriving instance DecidableEq for Except

/-- The orders table plus the autoincrement counter of the id column. -/
structure DB where
  orders : List Order
  seq : Int
deriving DecidableEq, Repr

/-- Session.query(Order).get(order_id): primary-key lookup. -/
def findOrder (db : DB) (oid : Int) : Option Order :=
  db.orders.find? (fun o => o.id == oid)

/-- Session.query(Order).order_by(Order.id.desc()).first(): the row with
the largest id, none on an empty table. -/
def lastOrder (db : DB) : Option Order :=
  db.orders.foldl
    (fun acc o =>
      match acc with
      | none => some o
      | some m => if m.id < o.id then some o else some m)
    none

/-- Session operations session_scope performs around a handler body
(lines 129-140): commit on normal exit, rollback on an exception, close
unconditionally. -/
inductive SessAction where
  | commit
  | rollback
  | close
deriving DecidableEq, Repr

/-- Outcome of one HTTP request: the response (or the re-raised
exception), the database after the session closed, and the session
actions in the order session_scope performed them. -/
structure RunResult where
  result : Except PyErr Resp
  db : DB
  actions : List SessAction
deriving DecidableEq, Repr

/-- Commit of the session: the row object fetched by the handler is
written back to its table slot (SQLAlchemy flushes the mutated row). -/
def commitOrder (db : DB) (row : Option Order) : DB :=
  match row with
  | none => db
  | some o => { db with orders := db.orders.map (fun x => if x.id == o.id then o else x) }

/-- PUT /orders/<oid> (lines 245-270).  The validate_schema decorator runs
before the session opens and — as written in the source at line 246 —
checks the body against drivers_post_schema.  Inside session_scope a
normal return commits and closes; an exception rolls back, closes and
re-raises. -/
def put_order (db : DB) (oid : Int) (body : Dict) : RunResult :=
  if drivers_post_valid body then
    match change_order_core (findOrder db oid) body with
    | .ok (resp, row) => ⟨.ok resp, commitOrder db row, [.commit, .close]⟩
    | .error e => ⟨.error e, db, [.rollback, .close]⟩
  else ⟨.ok .validationError, db, []⟩

/-- The body of create_order after validation (lines 229-242): looks up
the six keys in constructor-argument order (client_id first), inserts the
row with the next id, and answers with the row of largest id. -/
def create_order_core (content : Dict) (db : DB) : Except PyErr (Resp × DB) :=
  match dictGet content "client_id" with
  | none => .error (.keyError "client_id")
  | some ci =>
    match dictGet content "driver_id" with
    | none => .error (.keyError "driver_id")
    | some di =>
      match dictGet content "date_created" with
      | none => .error (.keyError "date_created")
      | some dc =>
        match dictGet content "status" with
        | none => .error (.keyError "status")
        | some st =>
          match dictGet content "address_from" with
          | none => .error (.keyError "address_from")
          | some af =>
            match dictGet content "address_to" with
            | none => .error (.keyError "address_to")
            | some ato =>
              let o : Order :=
                ⟨db.seq + 1, ci, di, dc, st, af, ato⟩
              let db2 : DB := ⟨db.orders ++ [o], db.seq + 1⟩
              match lastOrder db2 with
              | some last => .ok (.okRepr last, db2)
              | none => .error .attributeError

/-- POST /orders (lines 226-242).  As written in the source at line 227
the decorator checks the body against drivers_post_schema. -/
def post_orders (db : DB) (body : Dict) : RunResult :=
  if drivers_post_valid body then
    match create_order_core body db with
    | .ok (resp, db2) => ⟨.ok resp, db2, [.commit, .close]⟩
    | .error e => ⟨.error e, db, [.rollback, .close]⟩
  else ⟨.ok .validationError, db, []⟩

/-- GET /orders/<oid> (lines 218-223): repr of the row; on a missing row
the source calls a method on None, an AttributeError. -/
def get_order (db : DB) (oid : Int) : Except PyErr Resp :=
  match findOrder db oid with
  | some o => .ok (.okRepr o)
  | none => .error .attributeError

/-- A not_accepted row used as a concrete test vehicle. -/
def ordNA : Order :=
  ⟨1, .int 1, .int 2, .str "2021-01-01T09:00:00", .str "not_accepted",
   .str "Main St 1", .str "Oak Ave 2"⟩

/-- An in_progress row used as a concrete test vehicle. -/
def ordIP : Order :=
  ⟨1, .int 1, .int 2, .str "2021-01-01T09:00:00", .str "in_progress",
   .str "Main St 1", .str "Oak Ave 2"⟩

/-- A done row used as a concrete test vehicle. -/
def ordDone : Order :=
  ⟨1, .int 1, .int 2, .str "2021-01-01T09:00:00", .str "done",
   .str "Main St 1", .str "Oak Ave 2"⟩

/-- A well-formed order body per orders_post_schema, all six keys. -/
def bodySix : Dict :=
  [("client_id", .int 7), ("driver_id", .int 8),
   ("date_created", .str "2021-02-02T10:00:00"), ("status", .str "in_progress"),
   ("address_from", .str "From St"), ("address_to", .str "To St")]

/-- A body that passes drivers_post_schema, the schema the order routes
are actually decorated with. -/
def bodyNC : Dict := [("name", .str "Bob"), ("car", .str "Lada")]

/-- The row ordNA after the accepted update with bodySix: five columns
hold one-element tuples because of the trailing commas in lines 260-264,
address_to holds the plain value. -/
def updNA : Order :=
  ⟨1, .tuple1 (.int 7), .tuple1 (.int 8), .tuple1 (.str "2021-02-02T10:00:00"),
   .tuple1 (.str "in_progress"), .tuple1 (.str "From St"), .str "To St"⟩

/-- An empty database. -/
def dbEmpty : DB := ⟨[], 0⟩

/-- A database holding just ordNA. -/
def dbNA : DB := ⟨[ordNA], 1⟩

/-- A database holding just ordIP. -/
def dbIP : DB := ⟨[ordIP], 1⟩

/-- A database holding just ordDone. -/
def dbDone : DB := ⟨[ordDone], 1⟩

/-- The six fields of bodySix as an OrderFields record. -/
def fSix : OrderFields :=
  ⟨.int 7, .int 8, .str "2021-02-02T10:00:00", .str "in_progress",
   .str "From St", .str "To St"⟩

/-- A body proposing status done that keeps the client of ordIP, so the
three-way difference conjunction of lines 255-256 does not fire. -/
def bodyDone : Dict :=
  [("client_id", .int 1), ("driver_id", .int 8),
   ("date_created", .str "2021-02-02T10:00:00"), ("status", .str "done"),
   ("address_from", .str "From St"), ("address_to", .str "To St")]

/-- The fields of bodyDone as an OrderFields record. -/
def fDone : OrderFields :=
  ⟨.int 1, .int 8, .str "2021-02-02T10:00:00", .str "done",
   .str "From St", .str "To St"⟩

/-- The row ordIP after the accepted update with bodyDone: the trailing
commas of lines 260-264 store one-element tuples in five columns. -/
def updIP : Order :=
  ⟨1, .tuple1 (.int 1), .tuple1 (.int 8), .tuple1 (.str "2021-02-02T10:00:00"),
   .tuple1 (.str "done"), .tuple1 (.str "From St"), .str "To St"⟩

/-- Responses that report an error (validation failure, lifecycle
rejection or a missing row) as opposed to the 200 repr of a row. -/
def isErrorResp : Resp → Bool
  | .okRepr _ => false
  | _ => true

/-- Python equality against a string literal holds exactly for that
string value. -/
theorem pyEq_str_iff (v : Py) (s : String) : pyEq v (.str s) = true ↔ v = .str s := by
  cases v <;> simp [pyEq]

/-- When readOrderFields succeeds, each of the six lookups succeeds with
the corresponding field. -/
theorem readOrderFields_lookups {d : Dict} {f : OrderFields}
    (h : readOrderFields d = some f) :
    dictGet d "client_id" = some f.client_id ∧
    dictGet d "driver_id" = some f.driver_id ∧
    dictGet d "date_created" = some f.date_created ∧
    dictGet d "status" = some f.status ∧
    dictGet d "address_from" = some f.address_from ∧
    dictGet d "address_to" = some f.address_to := by
  unfold readOrderFields at h
  split at h
  · rw [Option.some_inj] at h
    subst h
    simp_all
  · simp at h

/-- C1: a persisted order whose current status is done or cancelled makes
change_order answer the 400 completed-order rejection for every payload:
the terminal-state test at lines 253-254 runs before any other lifecycle
rule and before any lookup into the body. -/
theorem terminal_order_rejects_any_update (o : Order) (content : Dict)
    (h : o.status = Py.str "done" ∨ o.status = Py.str "cancelled") :
    change_order_core (some o) content = .ok (.completedErr, some o) := by
  rcases h with h | h <;> simp [change_order_core, h, pyEq]

/-- Witness for terminal_order_rejects_any_update: the done row with the
well-formed six-key body. -/
theorem terminal_order_rejects_any_update_inst :
    change_order_core (some ordDone) bodySix = .ok (.completedErr, some ordDone) :=
  terminal_order_rejects_any_update ordDone bodySix (by decide)

/-- C9: a persisted order whose stored status is none of the four enum
strings falls through every branch of change_order — lines 253, 255 and
258 all test false — and the handler answers 200 with the unchanged row,
neither rejecting nor applying the update. -/
theorem unknown_status_update_is_noop (o : Order) (content : Dict)
    (h : isEnumStatus o.status = false) :
    change_order_core (some o) content = .ok (.okRepr o, some o) := by
  simp only [isEnumStatus, pyMemStr, statusEnum, List.any_cons, List.any_nil,
    Bool.or_eq_false_iff] at h
  obtain ⟨hna, hip, hdn, hcn, -⟩ := h
  simp [change_order_core, inProgressCond, statusChainFind, status_chain,
    hna, hip, hdn, hcn]

/-- Witness for unknown_status_update_is_noop: a row with a misspelled
status and the six-key body. -/
theorem unknown_status_update_is_noop_inst :
    change_order_core (some ⟨1, .int 1, .int 2, .str "d", .str "finished", .str "a", .str "b"⟩)
      bodySix =
      .ok (.okRepr ⟨1, .int 1, .int 2, .str "d", .str "finished", .str "a", .str "b"⟩,
           some ⟨1, .int 1, .int 2, .str "d", .str "finished", .str "a", .str "b"⟩) :=
  unknown_status_update_is_noop _ bodySix (by decide)

/-- C2: for an order whose current status is not_accepted the update is
accepted — the six fields are assigned (as the source writes them, lines
260-265) and the mutated row is answered — exactly when the proposed
status is the string in_progress or cancelled; every other proposed
status answers the 400 status rejection of line 267. -/
theorem not_accepted_update_char (o : Order) (content : Dict) (f : OrderFields)
    (h1 : o.status = Py.str "not_accepted") (h2 : readOrderFields content = some f) :
    ((f.status = Py.str "in_progress" ∨ f.status = Py.str "cancelled") →
      change_order_core (some o) content =
        .ok (.okRepr (applyAssign o f.client_id f.driver_id f.date_created f.status
                f.address_from f.address_to),
             some (applyAssign o f.client_id f.driver_id f.date_created f.status
                f.address_from f.address_to))) ∧
    ((f.status ≠ Py.str "in_progress" ∧ f.status ≠ Py.str "cancelled") →
      change_order_core (some o) content = .ok (.statusErr, some o)) := by
  obtain ⟨hc, hd, hdc, hs, haf, hat⟩ := readOrderFields_lookups h2
  constructor
  · rintro (hst | hst) <;>
      simp [change_order_core, inProgressCond, statusChainFind, status_chain, pyMemStr,
        h1, hc, hd, hdc, hs, haf, hat, hst, pyEq]
  · rintro ⟨hst1, hst2⟩
    have e1 : pyEq f.status (.str "in_progress") = false := by
      cases hb : pyEq f.status (.str "in_progress")
      · rfl
      · exact absurd ((pyEq_str_iff _ _).mp hb) hst1
    have e2 : pyEq f.status (.str "cancelled") = false := by
      cases hb : pyEq f.status (.str "cancelled")
      · rfl
      · exact absurd ((pyEq_str_iff _ _).mp hb) hst2
    simp [change_order_core, inProgressCond, statusChainFind, status_chain, pyMemStr,
      h1, hs, e1, e2, pyEq]

/-- Witness for not_accepted_update_char: ordNA with bodySix, accepted,
and the stored columns are the one-element tuples of updNA. -/
theorem not_accepted_update_char_inst :
    change_order_core (some ordNA) bodySix = .ok (.okRepr updNA, some updNA) := by
  have h := (not_accepted_update_char ordNA bodySix fSix (by decide) (by decide)).1
    (Or.inl (by decide))
  exact h

/-- C3: for an order whose current status is in_progress, when the
proposed date_created, client_id and driver_id are all three different
(Python !=) from the stored ones the update is rejected with the 400
in-progress rejection of line 257 — before the transition table is ever
consulted — and otherwise the update is accepted exactly when the
proposed status is the string cancelled or done, any other proposed
status answering the 400 status rejection. -/
theorem in_progress_update_char (o : Order) (content : Dict) (f : OrderFields)
    (h1 : o.status = Py.str "in_progress") (h2 : readOrderFields content = some f) :
    ((pyEq o.date_created f.date_created = false ∧ pyEq o.client_id f.client_id = false ∧
      pyEq o.driver_id f.driver_id = false) →
      change_order_core (some o) content = .ok (.inProgressErr, some o)) ∧
    (¬(pyEq o.date_created f.date_created = false ∧ pyEq o.client_id f.client_id = false ∧
       pyEq o.driver_id f.driver_id = false) →
      ((f.status = Py.str "cancelled" ∨ f.status = Py.str "done") →
        change_order_core (some o) content =
          .ok (.okRepr (applyAssign o f.client_id f.driver_id f.date_created f.status
                  f.address_from f.address_to),
               some (applyAssign o f.client_id f.driver_id f.date_created f.status
                  f.address_from f.address_to))) ∧
      ((f.status ≠ Py.str "cancelled" ∧ f.status ≠ Py.str "done") →
        change_order_core (some o) content = .ok (.statusErr, some o))) := by
  obtain ⟨hc, hd, hdc, hs, haf, hat⟩ := readOrderFields_lookups h2
  constructor
  · rintro ⟨hb1, hb2, hb3⟩
    simp [change_order_core, inProgressCond, h1, pyEq, hdc, hc, hd, hb1, hb2, hb3]
  · intro hn
    have hcond0 : inProgressCond o content = .ok false := by
      by_cases ha : pyEq o.date_created f.date_created = true
      · simp [inProgressCond, h1, pyEq, hdc, ha]
      · have ha' : pyEq o.date_created f.date_created = false := by simpa using ha
        by_cases hb : pyEq o.client_id f.client_id = true
        · simp [inProgressCond, h1, pyEq, hdc, hc, ha', hb]
        · have hb' : pyEq o.client_id f.client_id = false := by simpa using hb
          have hc3 : pyEq o.driver_id f.driver_id = true := by
            by_cases hcc : pyEq o.driver_id f.driver_id = true
            · exact hcc
            · exact absurd ⟨ha', hb', by simpa using hcc⟩ hn
          simp [inProgressCond, h1, pyEq, hdc, hc, hd, ha', hb', hc3]
    constructor
    · rintro (hst | hst) <;>
        simp [change_order_core, statusChainFind, status_chain, pyMemStr,
          h1, hcond0, hc, hd, hdc, hs, haf, hat, hst, pyEq]
    · rintro ⟨hst1, hst2⟩
      have e1 : pyEq f.status (.str "cancelled") = false := by
        cases hb : pyEq f.status (.str "cancelled")
        · rfl
        · exact absurd ((pyEq_str_iff _ _).mp hb) hst1
      have e2 : pyEq f.status (.str "done") = false := by
        cases hb : pyEq f.status (.str "done")
        · rfl
        · exact absurd ((pyEq_str_iff _ _).mp hb) hst2
      simp [change_order_core, statusChainFind, status_chain, pyMemStr,
        h1, hcond0, hs, e1, e2, pyEq]

/-- Witness for in_progress_update_char: ordIP with bodyDone — the client
is kept, so the conjunction does not fire, and the proposed status done
is accepted. -/
theorem in_progress_update_char_inst :
    change_order_core (some ordIP) bodyDone =
      .ok (.okRepr (applyAssign ordIP (.int 1) (.int 8) (.str "2021-02-02T10:00:00")
              (.str "done") (.str "From St") (.str "To St")),
           some (applyAssign ordIP (.int 1) (.int 8) (.str "2021-02-02T10:00:00")
              (.str "done") (.str "From St") (.str "To St"))) := by
  have h := ((in_progress_update_char ordIP bodyDone fDone (by decide) (by decide)).2
    (by decide)).1 (Or.inr (by decide))
  exact h

/-- C4 (code bug): an accepted update does not store the proposed values.
Because lines 260-264 of the source end in a trailing comma, Python
assigns the one-element tuple (value,) to client_id, driver_id,
date_created, status and address_from; only address_to (line 265, no
comma) receives the proposed value.  Evaluated at the not_accepted row
ordNA and the well-formed proposal bodySix. -/
theorem accepted_update_stores_tuples :
    change_order_core (some ordNA) bodySix = .ok (.okRepr updNA, some updNA) ∧
    updNA.client_id ≠ fSix.client_id ∧
    updNA.driver_id ≠ fSix.driver_id ∧
    updNA.date_created ≠ fSix.date_created ∧
    updNA.status ≠ fSix.status ∧
    updNA.address_from ≠ fSix.address_from ∧
    updNA.address_to = fSix.address_to := by decide

/-- C6 (code bug): a successful update leaves the status column outside
the four-value enum: accepting the transition in_progress to done stores
the one-element tuple containing the string done, which is not one of the
four enum strings, so the status invariant is broken by the same trailing
comma defect of line 263. -/
theorem accepted_update_breaks_status_enum :
    change_order_core (some ordIP) bodyDone = .ok (.okRepr updIP, some updIP) ∧
    isEnumStatus updIP.status = false ∧
    isEnumStatus ordIP.status = true := by decide

/-- C5 (code bug): the POST /orders route is decorated with
validate_schema(drivers_post_schema) (line 227), so a body that satisfies
the order schema orders_post_schema defined at lines 92-107 is rejected
with the 400 validation response before the handler runs, and no row is
created. -/
theorem orders_route_rejects_valid_order_body :
    orders_post_valid bodySix = true ∧
    post_orders dbNA bodySix = ⟨.ok .validationError, dbNA, []⟩ := by decide

/-- Every body valid for orders_post_schema has keys among the six order
keys only, hence lacks the key name and fails drivers_post_schema. -/
theorem valid_order_body_fails_drivers_schema (d : Dict)
    (h : orders_post_valid d = true) : drivers_post_valid d = false := by
  have h7 : d.all (fun kv => decide (kv.1 ∈ orderKeys)) = true := by
    simp only [orders_post_valid, Bool.and_eq_true] at h
    tauto
  have hname : d.find? (fun kv => kv.1 == "name") = none := by
    rw [List.find?_eq_none]
    intro kv hkv
    have hmem : kv.1 ∈ orderKeys := of_decide_eq_true ((List.all_eq_true.mp h7) kv hkv)
    simp only [orderKeys, List.mem_cons, List.not_mem_nil, or_false] at hmem
    rcases hmem with h1 | h1 | h1 | h1 | h1 | h1 <;> simp [h1]
  simp [drivers_post_valid, dictGet, hname]

/-- C7 (code bug): the create-then-read round trip cannot even start:
because POST /orders validates against drivers_post_schema (line 227),
every body that is well-formed for the order schema is answered with the
400 validation response, the session is never opened and the database is
unchanged, so there is no created record to read back. -/
theorem order_roundtrip_unreachable (body : Dict) (db : DB)
    (h : orders_post_valid body = true) :
    post_orders db body = ⟨.ok .validationError, db, []⟩ ∧
    (∀ oid, get_order (post_orders db body).db oid = get_order db oid) := by
  have hd := valid_order_body_fails_drivers_schema body h
  constructor
  · simp [post_orders, hd]
  · intro oid
    simp [post_orders, hd]

/-- Witness for order_roundtrip_unreachable: the six-key body on the
empty database is answered with the validation response and creates
nothing. -/
theorem order_roundtrip_unreachable_inst :
    post_orders dbEmpty bodySix = ⟨.ok .validationError, dbEmpty, []⟩ :=
  (order_roundtrip_unreachable bodySix dbEmpty (by decide)).1

/-- When change_order returns an error response normally, the fetched row
is handed back to the session exactly as it was fetched: every rejection
happens before the assignments of lines 260-265. -/
theorem errorResp_row_unchanged {ordRow : Option Order} {content : Dict} {resp : Resp}
    {row : Option Order}
    (h : change_order_core ordRow content = .ok (resp, row))
    (hresp : isErrorResp resp = true) : row = ordRow := by
  cases ordRow with
  | none => simp_all [change_order_core]
  | some o =>
    simp only [change_order_core] at h
    repeat' split at h
    all_goals
      first
        | exact Except.noConfusion h
        | (simp only [Except.ok.injEq, Prod.mk.injEq] at h
           obtain ⟨h1, h2⟩ := h
           subst h1
           subst h2
           first
             | rfl
             | (exfalso; simp [isErrorResp] at hresp))

/-- When create_order returns normally its response is the 200 repr of a
row, never an error response. -/
theorem create_ok_resp {content : Dict} {db db2 : DB} {resp : Resp}
    (h : create_order_core content db = .ok (resp, db2)) :
    isErrorResp resp = false := by
  simp only [create_order_core] at h
  repeat' split at h
  all_goals
    first
      | exact Except.noConfusion h
      | (simp only [Except.ok.injEq, Prod.mk.injEq] at h
         obtain ⟨h1, h2⟩ := h
         subst h1
         rfl)

/-- Replacing the slot of a row by that same row is the identity when the
row id does not occur in the list. -/
theorem map_keep_of_not_mem {l : List Order} {o : Order}
    (h : o.id ∉ l.map (fun x => x.id)) :
    l.map (fun x => if x.id == o.id then o else x) = l := by
  induction l with
  | nil => rfl
  | cons y ys ih =>
    simp only [List.map_cons, List.mem_cons, not_or] at h
    obtain ⟨h1, h2⟩ := h
    have hy : ¬((y.id == o.id) = true) := by
      simp only [beq_iff_eq]
      exact fun he => h1 he.symm
    simp only [List.map_cons]
    rw [if_neg hy, ih h2]

/-- Writing the row found by a primary-key lookup back to its slot leaves
the table unchanged when the ids are distinct (the id is the primary key
of the orders table). -/
theorem map_replace_self {l : List Order} {oid : Int} {o : Order}
    (hnd : (l.map (fun x => x.id)).Nodup)
    (hf : l.find? (fun x => x.id == oid) = some o) :
    l.map (fun x => if x.id == o.id then o else x) = l := by
  induction l with
  | nil => simp at hf
  | cons y ys ih =>
    simp only [List.map_cons, List.nodup_cons] at hnd
    obtain ⟨hny, hnd2⟩ := hnd
    simp only [List.find?] at hf
    by_cases hy : (y.id == oid) = true
    · rw [hy] at hf
      simp only [Option.some_inj] at hf
      subst hf
      simp only [List.map_cons]
      rw [if_pos (by simp), map_keep_of_not_mem hny]
    · have hyf : (y.id == oid) = false := by simpa using hy
      rw [hyf] at hf
      simp only at hf
      have ho := List.find?_some hf
      simp only [beq_iff_eq] at ho
      have hyo : ¬((y.id == o.id) = true) := by
        simp only [beq_iff_eq]
        intro he
        exact hy (by simp [he, ho])
      simp only [List.map_cons]
      rw [if_neg hyo, ih hnd2 hf]

/-- C8 counterexample: a lifecycle rejection is an error path on which
the transaction is committed, not rolled back — change_order returns the
400 response normally (line 254), so session_scope runs session.commit()
(line 135).  Run: PUT on the done order with a body valid for the
attached schema. -/
theorem rejection_path_commits_not_rolls_back :
    (put_order dbDone 1 bodyNC).result = .ok .completedErr ∧
    SessAction.rollback ∉ (put_order dbDone 1 bodyNC).actions ∧
    SessAction.commit ∈ (put_order dbDone 1 bodyNC).actions := by decide

/-- C8 amended: on every exception path the transaction is rolled back
and the database is unchanged; on error responses returned normally the
committed transaction holds no modified row, so the stored state is
unchanged; and whenever the session is opened at all (validation failures
answer before the session exists) the recorded actions end with close.
Stated for both order routes, assuming the id column is a primary key
(pairwise distinct ids). -/
theorem session_scope_discipline (db : DB) (oid : Int) (body : Dict)
    (hnd : (db.orders.map (fun o => o.id)).Nodup) :
    ((put_order db oid body).actions = [] ∨
      (put_order db oid body).actions.getLast? = some .close) ∧
    (∀ e, (put_order db oid body).result = .error e →
      (put_order db oid body).actions = [.rollback, .close] ∧
      (put_order db oid body).db = db) ∧
    (∀ resp, (put_order db oid body).result = .ok resp → isErrorResp resp = true →
      (put_order db oid body).db = db) ∧
    ((post_orders db body).actions = [] ∨
      (post_orders db body).actions.getLast? = some .close) ∧
    (∀ e, (post_orders db body).result = .error e →
      (post_orders db body).actions = [.rollback, .close] ∧
      (post_orders db body).db = db) ∧
    (∀ resp, (post_orders db body).result = .ok resp → isErrorResp resp = true →
      (post_orders db body).db = db) := by
  refine ⟨?_, ?_, ?_, ?_, ?_, ?_⟩
  · by_cases hv : drivers_post_valid body
    · rcases h : change_order_core (findOrder db oid) body with e | pr
      · exact Or.inr (by simp [put_order, hv, h])
      · exact Or.inr (by simp [put_order, hv, h])
    · exact Or.inl (by simp [put_order, hv])
  · intro e he
    by_cases hv : drivers_post_valid body
    · rcases h : change_order_core (findOrder db oid) body with e2 | pr
      · refine ⟨?_, ?_⟩ <;> simp [put_order, hv, h]
      · simp [put_order, hv, h] at he
    · simp [put_order, hv] at he
  · intro resp hre hresp
    by_cases hv : drivers_post_valid body
    · rcases h : change_order_core (findOrder db oid) body with e2 | pr
      · simp [put_order, hv, h] at hre
      · obtain ⟨r2, row⟩ := pr
        simp only [put_order, hv, if_true, h] at hre ⊢
        simp only [Except.ok.injEq] at hre
        subst hre
        have hrow : row = findOrder db oid := errorResp_row_unchanged h hresp
        subst hrow
        rcases hfo : findOrder db oid with _ | o
        · simp [commitOrder, hfo]
        · simp only [hfo, commitOrder]
          have := map_replace_self hnd (by simpa [findOrder] using hfo)
          rw [this]
    · simp [put_order, hv]
  · by_cases hv : drivers_post_valid body
    · rcases h : create_order_core body db with e | pr
      · exact Or.inr (by simp [post_orders, hv, h])
      · exact Or.inr (by simp [post_orders, hv, h])
    · exact Or.inl (by simp [post_orders, hv])
  · intro e he
    by_cases hv : drivers_post_valid body
    · rcases h : create_order_core body db with e2 | pr
      · refine ⟨?_, ?_⟩ <;> simp [post_orders, hv, h]
      · simp [post_orders, hv, h] at he
    · simp [post_orders, hv] at he
  · intro resp hre hresp
    by_cases hv : drivers_post_valid body
    · rcases h : create_order_core body db with e2 | pr
      · simp [post_orders, hv, h] at hre
      · obtain ⟨r2, db2⟩ := pr
        simp only [post_orders, hv, if_true, h] at hre
        simp only [Except.ok.injEq] at hre
        subst hre
        have := create_ok_resp h
        rw [this] at hresp
        exact absurd hresp (by simp)
    · simp [post_orders, hv]

/-- Witness for session_scope_discipline: the KeyError raised by the PUT
on the not_accepted order rolls the session back and leaves the database
unchanged. -/
theorem session_scope_discipline_inst :
    (put_order dbNA 1 bodyNC).actions = [.rollback, .close] ∧
    (put_order dbNA 1 bodyNC).db = dbNA :=
  (session_scope_discipline dbNA 1 bodyNC (by decide)).2.1 (.keyError "status") (by decide)

/-- Every body valid for drivers_post_schema has its keys among name and
car only (required plus additionalProperties false), so looking up any
other key yields none, a KeyError at runtime. -/
theorem drivers_valid_lookup_none {d : Dict} (h : drivers_post_valid d = true)
    (k : String) (h1 : k ≠ "name") (h2 : k ≠ "car") : dictGet d k = none := by
  have hall : ∀ kv ∈ d, kv.1 = "name" ∨ kv.1 = "car" := by
    have h3 : d.all (fun kv => kv.1 == "name" || kv.1 == "car") = true := by
      simp only [drivers_post_valid, Bool.and_eq_true] at h
      tauto
    intro kv hkv
    simpa using (List.all_eq_true.mp h3) kv hkv
  have hfind : d.find? (fun kv => kv.1 == k) = none := by
    rw [List.find?_eq_none]
    intro kv hkv
    rcases hall kv hkv with hk | hk <;>
      · simp only [hk, beq_iff_eq]
        exact fun he => (by simp_all : False)
  simp [dictGet, hfind]

/-- C10 counterexample: a body that passes the attached schema does not
always end in a KeyError on PUT — on a done order the terminal check of
line 253 answers 400 before any body key is read, so an HTTP response is
produced. -/
theorem validated_put_can_respond_without_keyerror :
    drivers_post_valid bodyNC = true ∧
    (put_order dbDone 1 bodyNC).result = .ok .completedErr := by decide

/-- C10 amended: every body passing the schema attached to the order
routes lacks the keys client_id, date_created and status; POST /orders
therefore raises KeyError at the client_id lookup of line 233, and PUT
/orders/<id> raises KeyError whenever it reaches a body lookup, namely on
an existing order with status not_accepted (the status lookup of line
259) or in_progress (the date_created lookup of line 255); on a done or
cancelled, missing, or out-of-enum order PUT responds without reading the
body. -/
theorem validated_body_lacks_order_keys (body : Dict) (db : DB) (oid : Int)
    (h : drivers_post_valid body = true) :
    dictGet body "client_id" = none ∧
    dictGet body "date_created" = none ∧
    dictGet body "status" = none ∧
    (post_orders db body).result = .error (.keyError "client_id") ∧
    (∀ o, findOrder db oid = some o → o.status = Py.str "not_accepted" →
      (put_order db oid body).result = .error (.keyError "status")) ∧
    (∀ o, findOrder db oid = some o → o.status = Py.str "in_progress" →
      (put_order db oid body).result = .error (.keyError "date_created")) := by
  have hci := drivers_valid_lookup_none h "client_id" (by decide) (by decide)
  have hdc := drivers_valid_lookup_none h "date_created" (by decide) (by decide)
  have hst := drivers_valid_lookup_none h "status" (by decide) (by decide)
  refine ⟨hci, hdc, hst, ?_, ?_, ?_⟩
  · simp [post_orders, h, create_order_core, hci]
  · intro o hfo hos
    simp [put_order, h, change_order_core, hfo, hos, pyEq, inProgressCond,
      statusChainFind, status_chain, hst]
  · intro o hfo hos
    simp [put_order, h, change_order_core, hfo, hos, pyEq, inProgressCond, hdc]

/-- Witness for validated_body_lacks_order_keys: the name-and-car body on
the database with the not_accepted order. -/
theorem validated_body_lacks_order_keys_inst :
    (put_order dbNA 1 bodyNC).result = .error (.keyError "status") :=
  (validated_body_lacks_order_keys bodyNC dbNA 1 (by decide)).2.2.2.2.1
    ordNA (by decide) (by decide)
